import Mathlib

/-!
# Verification of the WhatsApp Web message extractor

A shallow embedding of the extraction pipeline in `main.py` (with the
auxiliary `automations/scrape.py`), together with theorems settling the
frozen specification claims.  Browser interactions (`find_elements`,
`get_attribute`, `.text`, clicks) are modelled as data already fetched
from the UI: an access that raises a WebDriver exception is an `Option`
that is `none`; an access that succeeds carries its result.
-/

/-! ## Character classes used by the metadata regex

`parse_message` matches the `data-pre-plain-text` attribute against the
Python regex

  `\[(\d{1,2}:\d{2}(?::\d{2})?),\s*(\d{1,2}/\d{1,2}/\d{4})\]\s*(.+?):`

via `re.match` (anchored at the start, trailing input allowed).  We embed
the regex as a parser over `List Char`.  `\d` and `\s` are modelled by
their ASCII classes. -/

def isDigitC (c : Char) : Bool := c.isDigit

def isSpaceC (c : Char) : Bool :=
  c = ' ' || c = '\t' || c = '\n' || c = '\x0d' || c = '\x0b' || c = '\x0c'

/-- Consume exactly `n` digit characters, returning them and the rest. -/
def digitsExact : Nat → List Char → Option (List Char × List Char)
  | 0, cs => some ([], cs)
  | _ + 1, [] => none
  | n + 1, c :: rest =>
      if isDigitC c then
        (digitsExact n rest).map (fun p => (c :: p.1, p.2))
      else none

/-- Consume one literal character. -/
def lit (ch : Char) : List Char → Option (List Char)
  | [] => none
  | c :: rest => if c = ch then some rest else none

/-- `\d{h}:\d{2}(?::\d{2})?` with a fixed digit count `h` for the hour.
The optional seconds group is greedy; since it starts with `:` and the
character following the whole time group in the regex is `,`, taking the
optional group whenever it matches agrees with Python's backtracking. -/
def pTimeCore (h : Nat) (cs : List Char) : Option (List Char × List Char) := do
  let (hh, r1) ← digitsExact h cs
  let r2 ← lit ':' r1
  let (mm, r3) ← digitsExact 2 r2
  match (do
      let r4 ← lit ':' r3
      let (ss, r5) ← digitsExact 2 r4
      pure (ss, r5) : Option (List Char × List Char)) with
  | some (ss, r5) => pure (hh ++ ':' :: mm ++ ':' :: ss, r5)
  | none => pure (hh ++ ':' :: mm, r3)

/-- `\d{1,2}:\d{2}(?::\d{2})?`: the greedy `{1,2}` tries two digits first.
The two alternatives are mutually exclusive (the two-digit branch demands
`:` as the third character, the one-digit branch as the second), so local
choice agrees with full backtracking. -/
def pTime (cs : List Char) : Option (List Char × List Char) :=
  (pTimeCore 2 cs).orElse (fun _ => pTimeCore 1 cs)

/-- `\d{a}/\d{b}/\d{4}` with fixed digit counts. -/
def pDateCore (a b : Nat) (cs : List Char) : Option (List Char × List Char) := do
  let (m1, r1) ← digitsExact a cs
  let r2 ← lit '/' r1
  let (d1, r3) ← digitsExact b r2
  let r4 ← lit '/' r3
  let (y, r5) ← digitsExact 4 r4
  pure (m1 ++ '/' :: d1 ++ '/' :: y, r5)

/-- `\d{1,2}/\d{1,2}/\d{4}`, greedy `{1,2}` groups (alternatives are again
mutually exclusive given the `/` and `]` that must follow). -/
def pDate (cs : List Char) : Option (List Char × List Char) :=
  (pDateCore 2 2 cs).orElse (fun _ =>
    (pDateCore 2 1 cs).orElse (fun _ =>
      (pDateCore 1 2 cs).orElse (fun _ => pDateCore 1 1 cs)))

/-- The lazy `(.+?):` tail: group of at least one non-newline character,
as short as possible, followed by `:` (i.e. stop at the first `:` that
appears after at least one character). -/
def lazyGo (acc : List Char) : List Char → Option (List Char)
  | [] => none
  | c :: rest =>
      if c = ':' then some acc
      else if c = '\n' then none
      else lazyGo (acc ++ [c]) rest

def lazyColon : List Char → Option (List Char)
  | [] => none
  | c :: rest => if c = '\n' then none else lazyGo [c] rest

/-- `\s*(.+?):` after the closing bracket.  The greedy `\s*` first takes
the whole leading-whitespace run, and on failure backtracks one
whitespace character at a time; `w` is the number of whitespace
characters currently given to `\s*`. -/
def senderTry (cs : List Char) : Nat → Option (List Char)
  | 0 => lazyColon cs
  | w + 1 => (lazyColon (cs.drop (w + 1))).orElse (fun _ => senderTry cs w)

def matchSender (cs : List Char) : Option (List Char) :=
  senderTry cs (cs.takeWhile isSpaceC).length

/-- `re.match(r'\[(\d{1,2}:\d{2}(?::\d{2})?),\s*(\d{1,2}/\d{1,2}/\d{4})\]\s*(.+?):', metadata)`
returning the three groups `(time, date, sender)` on success. -/
def parseMeta (metadata : String) : Option (String × String × String) := do
  let r0 ← lit '[' metadata.toList
  let (t, r1) ← pTime r0
  let r2 ← lit ',' r1
  let r3 := r2.dropWhile isSpaceC
  let (d, r4) ← pDate r3
  let r5 ← lit ']' r4
  let g ← matchSender r5
  pure (String.mk t, String.mk d, String.mk g)

/-! ## Substring containment (Python's `in` on strings) -/

def listHasInfix (pat : List Char) : List Char → Bool
  | [] => pat.isEmpty
  | c :: rest => pat.isPrefixOf (c :: rest) || listHasInfix pat rest

def strContains (s pat : String) : Bool :=
  listHasInfix pat.toList s.toList

example : parseMeta "[10:15, 3/4/2024] Alex:" = some ("10:15", "3/4/2024", "Alex") := by decide

example : parseMeta "[10:15 am, 3/4/2024] Alex:" = none := by decide

example : parseMeta "[23:59:07, 12/31/2024]  Bob Smith: hi" =
    some ("23:59:07", "12/31/2024", "Bob Smith") := by decide

example : strContains "abc message-out xyz" "message-out" = true := by decide

example : strContains "message-in" "message-out" = false := by decide

/-! ## The message data model and `parse_message` (main.py lines 377-427)

A `MsgContainer` is one rendered message element, with each WebDriver
access the code performs recorded as data:

* `media`: result of `container.find_elements(media_elements)`; `none`
  when the access raises, otherwise the (opaque) matched elements.
* `metadataElems`: result of the metadata `find_elements` together with
  the `data-pre-plain-text` attribute of each element (`none` inside the
  list = a null attribute); the outer `none` covers a raising access in
  this step.
* `textElems`: texts of the elements matched by the message-text
  selectors.
* `classAttr`: `container.get_attribute('class')`; the outer `none` is a
  raising access, the inner `none` a null attribute (on which the
  Python membership test `'message-out' in None` itself raises).
* `senderElems`: texts of the elements matched by the sender selectors.
-/

/-- Python's `str.strip()` (ASCII whitespace set). -/
def pyStrip (s : String) : String :=
  String.mk (((s.toList.dropWhile isSpaceC).reverse.dropWhile isSpaceC).reverse)

structure MessageRecord where
  chat_name : String
  sender : String
  text : String
  timestamp : String
  has_media : Bool
deriving DecidableEq, Repr

structure MsgContainer where
  media : Option (List Unit)
  metadataElems : Option (List (Option String))
  textElems : Option (List String)
  classAttr : Option (Option String)
  senderElems : Option (List String)
deriving DecidableEq, Repr

/-- Timestamp and sender from the first metadata element, as in lines
393-403: absent elements, a falsy attribute or a failed regex match all
leave both fields at `""`. -/
def metadata_fields (metaElems : List (Option String)) : String × String :=
  match metaElems with
  | [] => ("", "")
  | attr :: _ =>
      match attr with
      | none => ("", "")
      | some md =>
          match parseMeta md with
          | none => ("", "")
          | some (t, d, s) => (d ++ " " ++ t, pyStrip s)

/-- Lines 405-408: join the non-empty stripped texts with single spaces. -/
def message_text (texts : List String) : String :=
  String.intercalate " " ((texts.map pyStrip).filter (fun t => t ≠ ""))

/-- Lines 411-421: direction-based sender classification, reached only
when the metadata left the sender empty.  `none` models a raising access
(including the `TypeError` on a null class attribute), which the outer
handler turns into a dropped message. -/
def parse_sender_fallback (c : MsgContainer) : Option String :=
  match c.classAttr with
  | none => none
  | some none => none
  | some (some cls) =>
      if strContains cls "message-out" then some "Me"
      else
        match c.senderElems with
        | none => none
        | some [] => some "Unknown"
        | some (s :: _) => some (pyStrip s)

/-- `parse_message` (lines 377-427).  The whole body runs under one
`try`; any raising access makes it return `None`, every other failure
degrades the affected field. -/
def parse_message (c : MsgContainer) (chat_name : String) : Option MessageRecord :=
  c.media.bind (fun mediaList =>
    c.metadataElems.bind (fun metaElems =>
      c.textElems.bind (fun texts =>
        let fields := metadata_fields metaElems
        let senderOpt : Option String :=
          if fields.2 ≠ "" then some fields.2 else parse_sender_fallback c
        senderOpt.map (fun sender =>
          { chat_name := chat_name
            sender := sender
            text := message_text texts
            timestamp := fields.1
            has_media := decide (0 < mediaList.length) }))))

/-- Helper shared by several claims: an emitted record is always stamped
with the `chat_name` argument. -/
theorem parse_message_chat_name (c : MsgContainer) (n : String) (r : MessageRecord)
    (h : parse_message c n = some r) : r.chat_name = n := by
  unfold parse_message at h
  cases hm : c.media with
  | none => rw [hm] at h; simp only [Option.none_bind] at h; exact Option.noConfusion h
  | some mediaList =>
    rw [hm] at h
    cases hd : c.metadataElems with
    | none => rw [hd] at h; simp only [Option.none_bind] at h; exact Option.noConfusion h
    | some metaElems =>
      rw [hd] at h
      cases ht : c.textElems with
      | none =>
        rw [ht] at h; simp only [Option.some_bind, Option.none_bind] at h
        exact Option.noConfusion h
      | some texts =>
        rw [ht] at h
        simp only [Option.some_bind] at h
        rcases Option.map_eq_some'.mp h with ⟨sender, _, hr⟩
        rw [← hr]

example :
    parse_message
      { media := some []
        metadataElems := some [some "[10:15, 3/4/2024] Alex:"]
        textElems := some ["hello"]
        classAttr := some (some "message-in")
        senderElems := some [] } "Chat" =
    some { chat_name := "Chat", sender := "Alex", text := "hello"
           timestamp := "3/4/2024 10:15", has_media := false } := by decide

/-! ## Claim C1 - metadata with an am/pm marker

The spec's example metadata is `"[10:15 am, 3/4/2024] Alex:"`.  The
regex in `parse_message` has no am/pm component: after the minutes the
pattern demands a literal `,`, but the attribute continues with `" am,"`.
`scrape.py` documents the attribute format as `"[12:34 pm, 12/09/24]
Sender: "`, so the pattern cannot match the format the repository itself
records; the match fails, the timestamp stays empty, and the sender
falls back to direction classification. -/

def c1Container : MsgContainer :=
  { media := some []
    metadataElems := some [some "[10:15 am, 3/4/2024] Alex:"]
    textElems := some ["hello"]
    classAttr := some (some "message-in focusable-list-item")
    senderElems := some [] }

/-- C1: on the spec's own example input the code does not produce
`sender = "Alex"`, `timestamp = "3/4/2024 10:15 am"`: the metadata regex
fails on the am/pm marker, so the message is emitted with an empty
timestamp and the fallback sender `"Unknown"`.  Without the marker the
same metadata parses as the claim describes. -/
theorem c1_code_behavior :
    parse_message c1Container "Chat" =
      some { chat_name := "Chat", sender := "Unknown", text := "hello"
             timestamp := "", has_media := false }
  ∧ parseMeta "[10:15 am, 3/4/2024] Alex:" = none
  ∧ parseMeta "[10:15, 3/4/2024] Alex:" = some ("10:15", "3/4/2024", "Alex") := by
  refine ⟨by decide, by decide, by decide⟩

/-! ## Claim C5 - error handling of `parse_message` -/

/-- A container on which every WebDriver access succeeds but every
sub-field extraction fails softly: no media elements, no metadata
element, no text elements, a class without the outgoing marker, no
sender elements. -/
def allDefaultsContainer : MsgContainer :=
  { media := some []
    metadataElems := some []
    textElems := some []
    classAttr := some (some "")
    senderElems := some [] }

/-- The direction-based fallback always classifies the sender when the
class attribute is a real string and the sender lookup does not raise. -/
theorem parse_sender_fallback_isSome (c : MsgContainer)
    (hc1 : c.classAttr ≠ none) (hc2 : c.classAttr ≠ some none)
    (hs : c.senderElems ≠ none) : (parse_sender_fallback c).isSome = true := by
  cases hca : c.classAttr with
  | none => exact absurd hca hc1
  | some clsOpt =>
    cases clsOpt with
    | none => exact absurd hca hc2
    | some cls =>
      simp only [parse_sender_fallback, hca]
      by_cases hout : strContains cls "message-out" = true
      · simp [hout]
      · simp only [hout, if_false]
        cases hse : c.senderElems with
        | none => exact absurd hse hs
        | some sElems => cases sElems <;> simp

/-- C5: `parse_message` is a total function into `Option` (it never
raises); it returns `none` only when one of the element accesses raises
(media lookup, metadata lookup, text lookup, class attribute - including
the `TypeError` on a null class - or sender lookup); and when every
access succeeds but every sub-field extraction fails softly, the message
is still emitted with each field at its default. -/
theorem parse_message_error_handling (c : MsgContainer) (chat_name : String) :
    ((parse_message c chat_name).isNone →
        c.media = none ∨ c.metadataElems = none ∨ c.textElems = none
        ∨ c.classAttr = none ∨ c.classAttr = some none ∨ c.senderElems = none)
  ∧ parse_message allDefaultsContainer chat_name =
      some { chat_name := chat_name, sender := "Unknown", text := ""
             timestamp := "", has_media := false } := by
  constructor
  · intro hnone
    by_contra hall
    push_neg at hall
    obtain ⟨hm, hd, ht, hc1, hc2, hs⟩ := hall
    rcases Option.ne_none_iff_exists'.mp hm with ⟨mediaList, hm'⟩
    rcases Option.ne_none_iff_exists'.mp hd with ⟨metaElems, hd'⟩
    rcases Option.ne_none_iff_exists'.mp ht with ⟨texts, ht'⟩
    unfold parse_message at hnone
    rw [hm', hd', ht'] at hnone
    simp only [Option.some_bind] at hnone
    rw [Option.isNone_iff_eq_none, Option.map_eq_none'] at hnone
    by_cases hsd : (metadata_fields metaElems).2 ≠ ""
    · rw [if_pos hsd] at hnone
      exact Option.noConfusion hnone
    · rw [if_neg hsd] at hnone
      have hsome := parse_sender_fallback_isSome c hc1 hc2 hs
      rw [hnone] at hsome
      simp at hsome
  · rfl

/-- Witness for C5 at a concrete input: a container whose media lookup
raises is dropped, and the theorem pins the failure to an element
access. -/
def mediaRaisesContainer : MsgContainer :=
  { media := none
    metadataElems := some []
    textElems := some []
    classAttr := some (some "")
    senderElems := some [] }

theorem parse_message_error_handling_witness :
    mediaRaisesContainer.media = none ∨ mediaRaisesContainer.metadataElems = none
    ∨ mediaRaisesContainer.textElems = none ∨ mediaRaisesContainer.classAttr = none
    ∨ mediaRaisesContainer.classAttr = some none
    ∨ mediaRaisesContainer.senderElems = none :=
  (parse_message_error_handling mediaRaisesContainer "Chat").1 (by decide)

/-! ## Claim C2 - `find_chat_by_name` (main.py lines 271-308)

The search box is clicked and the target typed; a `TimeoutException` or
`NoSuchElementException` anywhere under the outer `try` yields `False`.
The loop over the search results compares each entry's stripped text
with the target and clicks the first exact match; a click that raises
one of the two caught exception types makes the loop continue.  With no
exact match, a non-empty result list falls back to clicking the first
entry (where an `ElementClickInterceptedException` would escape the
handler, modelled as `Except.error`). -/

inductive ClickOutcome
  | ok
  | notFound
  | intercepted
deriving DecidableEq, Repr

structure SearchResult where
  text : String
  click : ClickOutcome
deriving DecidableEq, Repr

structure SearchUI where
  searchBoxOk : Bool
  results : List SearchResult
deriving DecidableEq, Repr

inductive FindChatOutcome
  | openedIdx (i : Nat)
  | failed
deriving DecidableEq, Repr

/-- The scan loop of lines 288-297, returning the index of the entry it
clicked; entries whose click raises a caught exception are skipped. -/
def scanExact (target : String) : List SearchResult → Nat → Option Nat
  | [], _ => none
  | r :: rest, i =>
      if pyStrip r.text = target ∧ r.click = ClickOutcome.ok then some i
      else scanExact target rest (i + 1)

def find_chat_by_name (ui : SearchUI) (chat_name : String) : Except Unit FindChatOutcome :=
  if ui.searchBoxOk = false then Except.ok FindChatOutcome.failed
  else
    match scanExact chat_name ui.results 0 with
    | some i => Except.ok (FindChatOutcome.openedIdx i)
    | none =>
      match ui.results with
      | [] => Except.ok FindChatOutcome.failed
      | r :: _ =>
        match r.click with
        | ClickOutcome.ok => Except.ok (FindChatOutcome.openedIdx 0)
        | ClickOutcome.notFound => Except.ok FindChatOutcome.failed
        | ClickOutcome.intercepted => Except.error ()

theorem scanExact_index (target : String) (l : List SearchResult) :
    ∀ k i, scanExact target l k = some i →
      ∃ j, ∃ h : j < l.length, i = k + j ∧ pyStrip (l.get ⟨j, h⟩).text = target := by
  induction l with
  | nil => intro k i h; exact Option.noConfusion h
  | cons r rest ih =>
    intro k i h
    unfold scanExact at h
    by_cases hc : pyStrip r.text = target ∧ r.click = ClickOutcome.ok
    · rw [if_pos hc] at h
      refine ⟨0, by simp, ?_, ?_⟩
      · cases h; simp
      · simpa using hc.1
    · rw [if_neg hc] at h
      rcases ih (k + 1) i h with ⟨j, hj, hij, htext⟩
      refine ⟨j + 1, by simpa using Nat.succ_lt_succ hj, by omega, ?_⟩
      simpa using htext

theorem scanExact_isSome (target : String) :
    ∀ l : List SearchResult, (∀ r ∈ l, r.click = ClickOutcome.ok) →
      (∃ r ∈ l, pyStrip r.text = target) →
      ∀ k, (scanExact target l k).isSome = true := by
  intro l
  induction l with
  | nil => rintro _ ⟨r, hr, _⟩ k; exact absurd hr (List.not_mem_nil r)
  | cons r rest ih =>
    intro hclick hex k
    unfold scanExact
    by_cases hc : pyStrip r.text = target ∧ r.click = ClickOutcome.ok
    · simp [hc]
    · rw [if_neg hc]
      rcases hex with ⟨s, hs, hstext⟩
      rcases List.mem_cons.mp hs with rfl | hmem
      · exact absurd ⟨hstext, hclick s (List.mem_cons_self _ _)⟩ hc
      · exact ih (fun x hx => hclick x (List.mem_cons_of_mem _ hx)) ⟨s, hmem, hstext⟩ (k + 1)

theorem scanExact_no_match (target : String) :
    ∀ l : List SearchResult, (∀ r ∈ l, pyStrip r.text ≠ target) →
      ∀ k, scanExact target l k = none := by
  intro l
  induction l with
  | nil => intro _ _; rfl
  | cons r rest ih =>
    intro hno k
    unfold scanExact
    rw [if_neg (fun hc => hno r (List.mem_cons_self _ _) hc.1)]
    exact ih (fun x hx => hno x (List.mem_cons_of_mem _ hx)) (k + 1)

/-- C2: with the search box reachable and clicks not raising, the opener
clicks an entry whose stripped text equals the target exactly whenever
one exists; with no exact match but a non-empty result list it clicks
the first result and reports success; with no results it reports
failure. -/
theorem find_chat_by_name_policy (ui : SearchUI) (target : String)
    (hbox : ui.searchBoxOk = true)
    (hclick : ∀ r ∈ ui.results, r.click = ClickOutcome.ok) :
    ((∃ r ∈ ui.results, pyStrip r.text = target) →
        ∃ i, ∃ h : i < ui.results.length,
          find_chat_by_name ui target = Except.ok (FindChatOutcome.openedIdx i)
          ∧ pyStrip (ui.results.get ⟨i, h⟩).text = target)
  ∧ ((∀ r ∈ ui.results, pyStrip r.text ≠ target) → ui.results ≠ [] →
        find_chat_by_name ui target = Except.ok (FindChatOutcome.openedIdx 0))
  ∧ (ui.results = [] → find_chat_by_name ui target = Except.ok FindChatOutcome.failed) := by
  refine ⟨?_, ?_, ?_⟩
  · intro hex
    have hsome := scanExact_isSome target ui.results hclick hex 0
    rcases Option.isSome_iff_exists.mp hsome with ⟨i, hi⟩
    rcases scanExact_index target ui.results 0 i hi with ⟨j, hj, hij, htext⟩
    have hij' : i = j := by omega
    subst hij'
    refine ⟨i, hj, ?_, htext⟩
    simp [find_chat_by_name, hbox, hi]
  · intro hno hne
    have hnone := scanExact_no_match target ui.results hno 0
    cases hres : ui.results with
    | nil => exact absurd hres hne
    | cons r rest =>
      have hclickr : r.click = ClickOutcome.ok :=
        hclick r (by rw [hres]; exact List.mem_cons_self _ _)
      rw [hres] at hnone
      simp [find_chat_by_name, hbox, hres, hnone, hclickr]
  · intro hres
    simp [find_chat_by_name, hbox, hres, scanExact]

/-- The spec's own test case, reordered so that the exact match is not
first: the opener selects the exact `"Team A"` entry at index 1, not the
first result. -/
def c2ui : SearchUI :=
  { searchBoxOk := true
    results := [ { text := "Team A Extended", click := ClickOutcome.ok }
               , { text := "Team A", click := ClickOutcome.ok } ] }

theorem find_chat_by_name_policy_witness :
    ∃ i, ∃ h : i < c2ui.results.length,
      find_chat_by_name c2ui "Team A" = Except.ok (FindChatOutcome.openedIdx i)
      ∧ pyStrip (c2ui.results.get ⟨i, h⟩).text = "Team A" :=
  (find_chat_by_name_policy c2ui "Team A" rfl (by decide)).1 (by decide)

/-! ## Claim C3 - chat enumeration (main.py lines 321-350)

`get_all_visible_chats` finds the chat-list container, scrolls it to the
top (`scrollTop = 0`), reads the rendered rows once and deduplicates the
row titles.  It contains no scroll-to-bottom loop and no scroll-height
comparison (that loop exists only in the diagnostic `test_whatsapp.py`).
A simulated scrollable list is a `ChatListSim`: `initialRows` are the
rows rendered before any bottom-scroll (each row's `span[@title]`
attribute, `none` when the row has no title or its access raises), and
`afterScroll n` the rows that would be rendered after `n`
bottom-scrolls. -/

structure ChatListSim where
  containerFound : Bool
  initialRows : List (Option String)
  afterScroll : Nat → List (Option String)

inductive UIOp
  | scrollToTop
  | scrollToBottom
deriving DecidableEq, Repr

/-- The dedup loop of lines 334-344: truthy, unseen titles are appended
in encounter order. -/
def collectChatNames : List (Option String) → List String → List String
  | [], acc => acc
  | none :: rest, acc => collectChatNames rest acc
  | some t :: rest, acc =>
      if t ≠ "" ∧ t ∉ acc then collectChatNames rest (acc ++ [t])
      else collectChatNames rest acc

/-- `get_all_visible_chats`, returning the scroll operations performed
on the chat-list container together with the collected names. -/
def get_all_visible_chats (sim : ChatListSim) : List UIOp × List String :=
  ((if sim.containerFound then [UIOp.scrollToTop] else []),
    collectChatNames sim.initialRows [])

theorem collectChatNames_spec (rows : List (Option String)) :
    ∀ acc : List String, ∃ extra,
      collectChatNames rows acc = acc ++ extra
      ∧ (acc.Nodup → (acc ++ extra).Nodup)
      ∧ List.Sublist extra (rows.filterMap id)
      ∧ ∀ t ∈ extra, t ∉ acc ∧ t ≠ "" := by
  induction rows with
  | nil =>
    intro acc
    exact ⟨[], by simp [collectChatNames], by simp, by simp, by simp⟩
  | cons r rest ih =>
    intro acc
    cases r with
    | none =>
      rcases ih acc with ⟨extra, h1, h2, h3, h4⟩
      exact ⟨extra, h1, h2, by simpa [List.filterMap_cons] using h3, h4⟩
    | some t =>
      have heq : collectChatNames (some t :: rest) acc
          = if t ≠ "" ∧ t ∉ acc then collectChatNames rest (acc ++ [t])
            else collectChatNames rest acc := rfl
      by_cases hc : t ≠ "" ∧ t ∉ acc
      · rcases ih (acc ++ [t]) with ⟨extra, h1, h2, h3, h4⟩
        refine ⟨t :: extra, ?_, ?_, ?_, ?_⟩
        · rw [heq, if_pos hc, h1]
          simp
        · intro hnd
          have hnd' : (acc ++ [t]).Nodup := by
            simp [List.nodup_append, hnd, hc.2]
          have := h2 hnd'
          simpa using this
        · simpa [List.filterMap_cons] using List.Sublist.cons₂ t h3
        · intro s hs
          rcases List.mem_cons.mp hs with rfl | hmem
          · exact ⟨hc.2, hc.1⟩
          · rcases h4 s hmem with ⟨hnotin, hne⟩
            exact ⟨fun hin => hnotin (List.mem_append_left _ hin), hne⟩
      · rcases ih acc with ⟨extra, h1, h2, h3, h4⟩
        refine ⟨extra, ?_, h2, ?_, h4⟩
        · rw [heq, if_neg hc, h1]
        · simp only [List.filterMap_cons, id]
          exact List.Sublist.cons t h3

/-- C3 (amended): enumeration reads the initially rendered rows once and
performs no scroll-to-bottom operation at all; the names returned are
distinct, non-empty, and form a subsequence of the row-title stream in
first-seen order. -/
theorem get_all_visible_chats_props (sim : ChatListSim) :
    (get_all_visible_chats sim).1.count UIOp.scrollToBottom = 0
  ∧ (get_all_visible_chats sim).2.Nodup
  ∧ List.Sublist (get_all_visible_chats sim).2 (sim.initialRows.filterMap id)
  ∧ ∀ t ∈ (get_all_visible_chats sim).2, t ≠ "" := by
  rcases collectChatNames_spec sim.initialRows [] with ⟨extra, h1, h2, h3, h4⟩
  have hres : (get_all_visible_chats sim).2 = extra := by
    simp [get_all_visible_chats, h1]
  refine ⟨?_, ?_, ?_, ?_⟩
  · cases hcf : sim.containerFound <;> simp [get_all_visible_chats, hcf]
  · rw [hres]; simpa using h2 (by simp)
  · rw [hres]; exact h3
  · rw [hres]; intro t ht; exact (h4 t ht).2

/-- The simulated scrollable list from the claim: two rows rendered
initially, each bottom-scroll up to the second renders one more row, the
third scroll renders nothing new. -/
def c3Sim : ChatListSim :=
  { containerFound := true
    initialRows := [some "Alice", some "Bob"]
    afterScroll := fun n =>
      if n = 0 then [some "Alice", some "Bob"]
      else if n = 1 then [some "Alice", some "Bob", some "Carol"]
      else [some "Alice", some "Bob", some "Carol", some "Dave"] }

/-- C3 (counterexample): on the claim's simulated list the code performs
zero scroll operations, not three, and never sees the rows that only a
bottom-scroll would have rendered. -/
theorem c3_counterexample :
    (get_all_visible_chats c3Sim).1.count UIOp.scrollToBottom = 0
  ∧ ¬((get_all_visible_chats c3Sim).1.count UIOp.scrollToBottom = 3)
  ∧ (get_all_visible_chats c3Sim).2 = ["Alice", "Bob"]
  ∧ some "Carol" ∈ c3Sim.afterScroll 3
  ∧ "Carol" ∉ (get_all_visible_chats c3Sim).2 := by
  refine ⟨by decide, by decide, by decide, by decide, by decide⟩

/-! ## Claim C4 - `find_element_with_fallbacks` (main.py lines 127-142)

An element is an identity plus its `is_displayed()` flag; `find` models
`driver.find_elements(By.XPATH, sel)` (`none` = the call raises).  The
code returns `elements[0]` of the first expression whose result list is
non-empty with a displayed first element; any other outcome - raising,
no matches, or a hidden first match - moves on to the next expression,
even when a later match of the same expression is visible. -/

structure Elem where
  id : Nat
  displayed : Bool
deriving DecidableEq, Repr

/-- `SELECTORS.get(selector_key, [])`. -/
def lookupSelectors (table : List (String × List String)) (key : String) : List String :=
  match table.find? (fun p => p.1 == key) with
  | some p => p.2
  | none => []

/-- The fallback loop.  The guard `if selector and isinstance(selector, str)`
skips falsy selectors, so an empty expression is passed over without a
lookup. -/
def tryFallbacks (find : String → Option (List Elem)) : List String → Option Elem
  | [] => none
  | sel :: rest =>
      if sel = "" then tryFallbacks find rest
      else
        match find sel with
        | none => tryFallbacks find rest
        | some [] => tryFallbacks find rest
        | some (e :: _) => if e.displayed then some e else tryFallbacks find rest

def find_element_with_fallbacks (table : List (String × List String))
    (find : String → Option (List Elem)) (key : String) : Option Elem :=
  tryFallbacks find (lookupSelectors table key)

/-- Modelled from the spec's words, for comparison: "returns the first
visible match found by any expression" - the first displayed element in
the concatenation of every expression's matches, in declared order. -/
def firstVisibleMatchSpec (find : String → Option (List Elem)) : List String → Option Elem
  | [] => none
  | sel :: rest =>
      match find sel with
      | none => firstVisibleMatchSpec find rest
      | some elems =>
          match elems.find? (fun e => e.displayed) with
          | some e => some e
          | none => firstVisibleMatchSpec find rest

theorem tryFallbacks_sound (find : String → Option (List Elem)) :
    ∀ sels : List String, ∀ e : Elem, tryFallbacks find sels = some e →
      e.displayed = true ∧ ∃ sel ∈ sels, ∃ elems, find sel = some elems ∧ elems.head? = some e := by
  intro sels
  induction sels with
  | nil => intro e h; exact Option.noConfusion h
  | cons sel rest ih =>
    intro e h
    have heq : tryFallbacks find (sel :: rest)
        = if sel = "" then tryFallbacks find rest
          else
            match find sel with
            | none => tryFallbacks find rest
            | some [] => tryFallbacks find rest
            | some (x :: xs) => if x.displayed then some x else tryFallbacks find rest := rfl
    rw [heq] at h
    by_cases hsel : sel = ""
    · rw [if_pos hsel] at h
      rcases ih e h with ⟨hd, s, hs, elems, hfind, hhead⟩
      exact ⟨hd, s, List.mem_cons_of_mem _ hs, elems, hfind, hhead⟩
    · rw [if_neg hsel] at h
      cases hf : find sel with
      | none =>
        rw [hf] at h
        rcases ih e h with ⟨hd, s, hs, elems, hfind, hhead⟩
        exact ⟨hd, s, List.mem_cons_of_mem _ hs, elems, hfind, hhead⟩
      | some elems =>
        rw [hf] at h
        cases elems with
        | nil =>
          rcases ih e h with ⟨hd, s, hs, elems', hfind, hhead⟩
          exact ⟨hd, s, List.mem_cons_of_mem _ hs, elems', hfind, hhead⟩
        | cons x xs =>
          replace h : (if x.displayed = true then some x else tryFallbacks find rest) = some e := h
          by_cases hdisp : x.displayed = true
          · rw [if_pos hdisp] at h
            cases h
            exact ⟨hdisp, sel, List.mem_cons_self _ _, e :: xs, hf, rfl⟩
          · rw [if_neg hdisp] at h
            rcases ih e h with ⟨hd, s, hs, elems', hfind, hhead⟩
            exact ⟨hd, s, List.mem_cons_of_mem _ hs, elems', hfind, hhead⟩

/-- C4 (amended): whatever the resolver returns is a displayed element
that is the head of some expression's result list, expressions being
tried in declared order; an expression whose first match is hidden is
skipped even if a later match of it is visible; a name absent from the
lookup table yields `none`. -/
theorem find_element_with_fallbacks_sound (table : List (String × List String))
    (find : String → Option (List Elem)) (key : String) :
    (∀ e, find_element_with_fallbacks table find key = some e →
        e.displayed = true
        ∧ ∃ sel ∈ lookupSelectors table key, ∃ elems, find sel = some elems ∧ elems.head? = some e)
  ∧ (table.find? (fun p => p.1 == key) = none →
        find_element_with_fallbacks table find key = none) := by
  constructor
  · intro e h
    exact tryFallbacks_sound find (lookupSelectors table key) e h
  · intro habs
    simp [find_element_with_fallbacks, lookupSelectors, habs, tryFallbacks]

/-- An expression whose first match is hidden but whose second match is
visible, followed by an expression with a visible first match. -/
def c4find : String → Option (List Elem) :=
  fun s =>
    if s = "s1" then some [{ id := 0, displayed := false }, { id := 1, displayed := true }]
    else if s = "s2" then some [{ id := 2, displayed := true }]
    else none

/-- C4 (counterexample): the first visible match found by expression
`s1` is element 1, but the code skips `s1` entirely (its first match is
hidden) and returns element 2 found by `s2`. -/
theorem c4_counterexample :
    find_element_with_fallbacks [("k", ["s1", "s2"])] c4find "k"
      = some { id := 2, displayed := true }
  ∧ firstVisibleMatchSpec c4find ["s1", "s2"] = some { id := 1, displayed := true }
  ∧ find_element_with_fallbacks [("k", ["s1", "s2"])] c4find "k"
      ≠ firstVisibleMatchSpec c4find ["s1", "s2"] := by
  refine ⟨by decide, by decide, by decide⟩

/-- Witness for C4 at a concrete input: the returned element is
displayed and heads the result list of one of the declared
expressions. -/
theorem find_element_with_fallbacks_sound_witness :
    (Elem.mk 2 true).displayed = true
    ∧ ∃ sel ∈ lookupSelectors [("k", ["s1", "s2"])] "k",
        ∃ elems, c4find sel = some elems ∧ elems.head? = some (Elem.mk 2 true) :=
  (find_element_with_fallbacks_sound [("k", ["s1", "s2"])] c4find "k").1
    (Elem.mk 2 true) (by decide)

/-! ## Claims C6 and C8 - `extract_single_chat` (main.py lines 462-490)

A `ChatSession` records what the orchestrator observes: whether
`find_chat_by_name` reported success, the outcome of reading the header
title (`none` = the read raises, `some none` = no title element found,
`some (some t)` = element with text `t`), and the message containers of
the chat that is actually open. -/

structure ChatSession where
  openOk : Bool
  titleRead : Option (Option String)
  containers : List MsgContainer

/-- `get_chat_title` (lines 310-319): the stripped element text, or
`"Unknown Chat"` when the element is missing or the read raises. -/
def get_chat_title (titleRead : Option (Option String)) : String :=
  match titleRead with
  | none => "Unknown Chat"
  | some none => "Unknown Chat"
  | some (some t) => pyStrip t

/-- `extract_messages_from_chat` (lines 352-375): parse every container,
skipping those that yield `None`. -/
def extract_messages_from_chat (containers : List MsgContainer) (chat_name : String) :
    List MessageRecord :=
  containers.filterMap (fun c => parse_message c chat_name)

/-- `extract_single_chat` as the sequence of records it extracts (and
writes): nothing when the open fails, otherwise the messages of the open
chat stamped with the re-read title. -/
def extract_single_chat (s : ChatSession) (requested : String) : List MessageRecord :=
  if s.openOk then extract_messages_from_chat s.containers (get_chat_title s.titleRead)
  else []

/-- Shared helper: every record extracted by the single-chat path is
stamped with the re-read title. -/
theorem extract_single_chat_stamps (s : ChatSession) (requested : String) :
    ∀ r ∈ extract_single_chat s requested, r.chat_name = get_chat_title s.titleRead := by
  intro r hr
  by_cases hopen : s.openOk = true
  · rw [extract_single_chat, if_pos hopen] at hr
    rcases List.mem_filterMap.mp hr with ⟨c, _, hc⟩
    exact parse_message_chat_name c _ r hc
  · rw [extract_single_chat, if_neg hopen] at hr
    exact absurd hr (List.not_mem_nil r)

/-- C6: when the chat cannot be opened the extraction is empty; when it
opens, every record is stamped with the re-read displayed title - which
is independent of the requested name, as the batch path (lines 515-517)
also relies on. -/
theorem extract_single_chat_resolved_title (s : ChatSession) (requested : String) :
    (s.openOk = false → extract_single_chat s requested = [])
  ∧ (∀ r ∈ extract_single_chat s requested, r.chat_name = get_chat_title s.titleRead) := by
  constructor
  · intro hfail
    simp [extract_single_chat, hfail]
  · exact extract_single_chat_stamps s requested

/-- A session whose open succeeded, whose displayed title differs from
the requested name, and with one fully readable container. -/
def c6Session : ChatSession :=
  { openOk := true
    titleRead := some (some "Team A Extended")
    containers := [ { media := some []
                      metadataElems := some [some "[10:15, 3/4/2024] Alex:"]
                      textElems := some ["hello"]
                      classAttr := some (some "message-in")
                      senderElems := some [] } ] }

/-- A session whose open attempt failed. -/
def c6FailedSession : ChatSession :=
  { openOk := false, titleRead := none, containers := [] }

theorem extract_single_chat_resolved_title_witness :
    extract_single_chat c6FailedSession "Team A" = [] :=
  (extract_single_chat_resolved_title c6FailedSession "Team A").1 rfl

/-! ## Claim C8 - non-empty `chat_name` -/

/-- A title element whose text is all whitespace strips to the empty
string, and `get_chat_title` returns it unguarded. -/
def c8Session : ChatSession :=
  { openOk := true
    titleRead := some (some "  ")
    containers := [ { media := some []
                      metadataElems := some []
                      textElems := some []
                      classAttr := some (some "message-out")
                      senderElems := some [] } ] }

/-- C8 (counterexample): the session above emits a record whose
`chat_name` is the empty string. -/
theorem c8_counterexample :
    extract_single_chat c8Session "Friends"
      = [{ chat_name := "", sender := "Me", text := "", timestamp := "", has_media := false }]
  ∧ (MessageRecord.chat_name
      { chat_name := "", sender := "Me", text := "", timestamp := "", has_media := false }) = "" := by
  refine ⟨by decide, rfl⟩

/-- C8 (amended): every emitted record's `chat_name` equals the resolved
title, which is the non-empty `"Unknown Chat"` whenever the title
element is missing or unreadable; it can only be empty when a title
element is present whose text strips to the empty string. -/
theorem chat_name_nonempty (s : ChatSession) (requested : String)
    (htitle : ∀ t, s.titleRead = some (some t) → pyStrip t ≠ "") :
    ∀ r ∈ extract_single_chat s requested, r.chat_name ≠ "" := by
  intro r hr
  have hstamp := extract_single_chat_stamps s requested r hr
  rw [hstamp]
  cases ht : s.titleRead with
  | none => simp [get_chat_title]
  | some tOpt =>
    cases tOpt with
    | none => simp [get_chat_title]
    | some t => simpa [get_chat_title] using htitle t ht

theorem chat_name_nonempty_witness :
    MessageRecord.chat_name
      { chat_name := "Team A Extended", sender := "Alex", text := "hello"
        timestamp := "3/4/2024 10:15", has_media := false } ≠ "" :=
  chat_name_nonempty c6Session "Team A"
    (by intro t h; simp only [c6Session, Option.some.injEq] at h; subst h; decide)
    { chat_name := "Team A Extended", sender := "Alex", text := "hello"
      timestamp := "3/4/2024 10:15", has_media := false } (by decide)

/-! ## Claim C7 - output file names (main.py lines 451-453, 482-487, 539-543) -/

def filenameBadChars : List Char := ['<', '>', ':', '"', '/', '\\', '|', '?', '*']

/-- `re.sub(r'[<>:"/\\|?*]', '_', filename)`: a character-for-character
replacement. -/
def sanitize_filename (filename : String) : String :=
  String.mk (filename.toList.map (fun c => if c ∈ filenameBadChars then '_' else c))

/-- Single-chat mode file names (lines 485-487). -/
def single_chat_csv_name (actual : String) : String :=
  "messages_" ++ sanitize_filename actual ++ ".csv"

def single_chat_jsonl_name (actual : String) : String :=
  "messages_" ++ sanitize_filename actual ++ ".jsonl"

/-- Batch mode file names (lines 542-543) are fixed constants. -/
def all_chats_csv_name : String := "messages_all.csv"

def all_chats_jsonl_name : String := "messages_all.jsonl"

/-- C7 (counterexample): a batch run's file name is the constant
`messages_all.csv`; it does not even contain the sanitized resolved
title, so it is not derived from it. -/
theorem c7_counterexample :
    all_chats_csv_name = "messages_all.csv"
  ∧ sanitize_filename "Team:X" = "Team_X"
  ∧ strContains all_chats_csv_name (sanitize_filename "Team:X") = false
  ∧ all_chats_csv_name ≠ single_chat_csv_name "Team:X" := by
  refine ⟨rfl, by decide, by decide, by decide⟩

/-- C7 (amended): single-chat runs derive both file names from the
resolved title with each of the characters in the unsafe set replaced by
an underscore and every other character unchanged; batch runs use the
fixed names `messages_all.csv` and `messages_all.jsonl`. -/
theorem output_filenames (title : String) :
    single_chat_csv_name title = "messages_" ++ sanitize_filename title ++ ".csv"
  ∧ single_chat_jsonl_name title = "messages_" ++ sanitize_filename title ++ ".jsonl"
  ∧ (∀ i : Nat, (sanitize_filename title).toList[i]?
      = (title.toList[i]?).map (fun c => if c ∈ filenameBadChars then '_' else c))
  ∧ all_chats_csv_name = "messages_all.csv"
  ∧ all_chats_jsonl_name = "messages_all.jsonl" := by
  refine ⟨rfl, rfl, ?_, rfl, rfl⟩
  intro i
  show (title.toList.map (fun c => if c ∈ filenameBadChars then '_' else c))[i]? = _
  exact List.getElem?_map _ title.toList i

/-! ## Claim C9 - `setup_driver` (main.py lines 161-189)

Each `chrome_options.add_argument` call is one tagged value, in call
order; the user-data directory is created and passed only in the
non-headless branch. -/

inductive ChromeArg
  | noSandbox
  | disableDevShmUsage
  | userDataDir (dir : String)
  | headlessFlag
  | remoteDebuggingPort (port : Nat)
deriving DecidableEq, Repr

structure DriverSetup where
  args : List ChromeArg
  createdUserDataDir : Bool
deriving DecidableEq, Repr

def setup_driver (user_data_dir : String) (headless : Bool) : DriverSetup :=
  { args := [ChromeArg.noSandbox, ChromeArg.disableDevShmUsage]
      ++ (if headless then [] else [ChromeArg.userDataDir user_data_dir])
      ++ (if headless then [ChromeArg.headlessFlag] else [])
      ++ [ChromeArg.remoteDebuggingPort 0]
    createdUserDataDir := !headless }

/-- C9: a headless run neither creates the user-data directory nor
passes any `--user-data-dir` argument - for the supplied directory or
any other - while a non-headless run passes exactly the supplied one. -/
theorem setup_driver_headless_no_profile (ud : String) :
    (∀ d, ChromeArg.userDataDir d ∉ (setup_driver ud true).args)
  ∧ (setup_driver ud true).createdUserDataDir = false
  ∧ ChromeArg.userDataDir ud ∈ (setup_driver ud false).args
  ∧ (setup_driver ud false).createdUserDataDir = true := by
  refine ⟨?_, rfl, ?_, rfl⟩
  · intro d
    simp [setup_driver]
  · simp [setup_driver]

/-! ## Claim C10 - a `--max-chats` value of 0

Line 503 `if max_chats: chat_names = chat_names[:max_chats]` tests the
value's truthiness, so `None` and `0` both skip the truncation; the
`iterate_chats` stop check (scrape.py line 33) `if max_chats and count >=
max_chats` likewise never fires for `0`. -/

/-- The chat list actually processed by `extract_all_chats` (lines
497-511), as a function of the enumerated names and the optional cap
(negative caps slice from the end, as in Python). -/
def extract_all_chats_selected (names : List String) (max_chats : Option Int) : List String :=
  match max_chats with
  | none => names
  | some m =>
      if m ≠ 0 then
        (if 0 ≤ m then names.take m.toNat
         else names.take (names.length - (-m).toNat))
      else names

/-- The early-return check of `iterate_chats`. -/
def iterate_chats_stop (max_chats : Option Int) (count : Nat) : Bool :=
  match max_chats with
  | none => false
  | some m => if m ≠ 0 then decide ((count : Int) ≥ m) else false

/-- C10: a cap of 0 is falsy, so batch mode processes every enumerated
chat - exactly as with no cap at all - and the per-chat stop check never
fires. -/
theorem max_chats_zero_uncapped (names : List String) (count : Nat) :
    extract_all_chats_selected names (some 0) = names
  ∧ extract_all_chats_selected names (some 0) = extract_all_chats_selected names none
  ∧ iterate_chats_stop (some 0) count = iterate_chats_stop none count := by
  refine ⟨rfl, rfl, rfl⟩
